import Mathlib

/-!
Verification of the stellar-x402-facilitator verify/settle/replay-protection core.

The definitions below are a shallow embedding of the TypeScript sources:

* types and validators        (src/types.ts, validatePaymentPayload,
                               decodeAndValidatePaymentHeader)
* the replay-protection store (src/storage/replay-store.ts)
* the settlement coordinator  (routes/settle route with Zod validation,
                               src/stellar/settle.ts settleStellarPayment,
                               src/routes/settle.ts legacy wiring)
* the payment verifier        (src/schemes/exact/stellar/facilitator/verify.ts)

Ledger cryptography is abstracted: a transaction hash is modelled as the
(injective) constructor image of the submitted envelope, reflecting that the
SHA-256 transaction hash of distinct envelopes is distinct in practice, and a
fee-bump wrapper is a distinct envelope from the inner transaction it wraps.
JavaScript BigInt conversion and string truthiness are modelled explicitly.
-/

namespace StellarX402

/-- A signed inner Stellar transaction as parsed from the client XDR.
Only the fields the embedded code paths consult are kept. -/
structure InnerTx where
  source : String
  destination : String
  amount : Int
  asset : String
  seqNum : Nat
deriving DecidableEq, Repr

/-- An envelope as actually submitted to the ledger: either the client
transaction directly, or a fee-bump wrapper signed by the facilitator
(Stellar.TransactionBuilder.buildFeeBumpTransaction in the source). -/
inductive SubmittedEnv where
  | direct (tx : InnerTx)
  | feeBump (sponsor : String) (tx : InnerTx)
deriving DecidableEq, Repr

/-- A transaction identity string as it appears in the replay store and in
responses: either the hex hash of an envelope (modelled injectively), or one
of the two fabricated mock identities the code produces with Date.now(). -/
inductive TxId where
  | txHash (env : SubmittedEnv)
  | mockStellar (time : Nat)
  | mockTxHash (time : Nat)
deriving DecidableEq, Repr

/-- A signedTxXdr string: either unparseable (TransactionBuilder.fromXDR
throws) or parsing to a client transaction. -/
inductive Xdr where
  | bad
  | good (tx : InnerTx)
deriving DecidableEq, Repr

/-- The Stellar-specific payload carried inside a PaymentPayload
(caller-claimed fields; signedTxXdr may be absent on the header path). -/
structure StellarPayload where
  signedTxXdr : Option Xdr
  sourceAccount : String
  amount : String
  destination : String
  asset : String
deriving DecidableEq, Repr

/-- The decoded payment payload (src/types.ts PaymentPayload). The payload
field is optional to reflect the legacy wiring in src/routes/settle.ts. -/
structure PaymentPayload where
  x402Version : Int
  scheme : String
  network : String
  payload : Option StellarPayload
deriving DecidableEq, Repr

/-- Payment requirements supplied by the resource server; only the fields
the embedded code paths consult are kept. -/
structure PaymentRequirements where
  scheme : String
  network : String
  maxAmountRequired : String
  resource : String
  payTo : String
  asset : String
deriving DecidableEq, Repr

/-- The /settle response object. transaction = none models the empty string,
errorReason = none models a null/absent error field. -/
structure SettleResponse where
  success : Bool
  errorReason : Option String
  payer : Option String
  transaction : Option TxId
  network : String
deriving DecidableEq, Repr

/-- The /verify response object. -/
structure VerifyResponse where
  isValid : Bool
  invalidReason : Option String
  payer : Option String
deriving DecidableEq, Repr

/-- Facilitator configuration: FACILITATOR_SECRET_KEY, if set, enables
fee sponsorship. -/
structure Config where
  facilitatorKey : Option String
deriving DecidableEq, Repr

/-- The declared network table STELLAR_NETWORKS has exactly these keys. -/
def stellarNetworks : List String := ["stellar-testnet", "stellar"]

/-- STELLAR_NETWORKS[network] is defined (truthy networkConfig). -/
def hasNetworkConfig (network : String) : Bool := stellarNetworks.contains network

/-- JavaScript string truthiness: only the empty string is falsy. -/
def truthyStr (s : String) : Bool := s != ""

/-- The numeric value of a decimal digit character, none otherwise. -/
def digitVal (c : Char) : Option Nat :=
  if 48 ≤ c.toNat ∧ c.toNat ≤ 57 then some (c.toNat - 48) else none

/-- Value of a nonempty all-digit character list, none otherwise. -/
def digitsValGo (acc : Nat) : List Char → Option Nat
  | [] => some acc
  | c :: cs =>
    match digitVal c with
    | some d => digitsValGo (acc * 10 + d) cs
    | none => none

/-- Value of a nonempty all-digit character list, none otherwise. -/
def digitsVal (cs : List Char) : Option Nat :=
  match cs with
  | [] => none
  | _ => digitsValGo 0 cs

/-- JavaScript BigInt(string): the empty string converts to 0, a string of
digits (optionally minus-prefixed) converts to the integer it denotes, and
anything else throws a SyntaxError (modelled as none). -/
def jsBigInt (s : String) : Option Int :=
  match s.data with
  | [] => some 0
  | c :: rest =>
    if c = Char.ofNat 45 then (digitsVal rest).map (fun n => -(n : Int))
    else (digitsVal (c :: rest)).map Int.ofNat

/-- SCHEME constant from src/schemes/exact/index.ts. -/
def SCHEME : String := "exact"

/-- getTxHashFromXdr (src/stellar/verify.ts): parse the signed XDR and
return its transaction hash, or null when parsing fails. A client XDR
parses to a direct (non-fee-bump) envelope in this model. -/
def getTxHashFromXdr (x : Xdr) : Option TxId :=
  match x with
  | .bad => none
  | .good t => some (TxId.txHash (SubmittedEnv.direct t))

/-- The envelope settleStellarPayment submits: a fee-bump wrapper when a
facilitator key is configured, the client transaction otherwise. -/
def submittedOf (cfg : Config) (t : InnerTx) : SubmittedEnv :=
  match cfg.facilitatorKey with
  | some k => SubmittedEnv.feeBump k t
  | none => SubmittedEnv.direct t

/-! ## Replay-protection store (src/storage/replay-store.ts) -/

/-- A stored settlement record (settledAt carries the route call time). -/
structure SettlementRecord where
  txHash : TxId
  resource : String
  settledAt : Nat
  response : SettleResponse
deriving DecidableEq, Repr

/-- A key-value map from transaction identity to record; insertion prepends,
lookup takes the first match, matching JS Map set/get overwrite semantics. -/
abbrev RecordMap := List (TxId × SettlementRecord)

/-- The replay store: the Redis backend (with its connection flag) and the
process-local in-memory fallback map. -/
structure ReplayStoreState where
  connected : Bool
  redis : RecordMap
  memory : RecordMap
deriving DecidableEq, Repr

/-- Behaviour of the Redis backend for one call: the call succeeds, or it
throws (connection reset, timeout, ...). -/
inductive RedisOutcome where
  | ok
  | err
deriving DecidableEq, Repr

/-- One awaited Redis operation: its value on success, a thrown error
otherwise. The store functions catch this error and fall back to memory. -/
def redisTry {α : Type} (o : RedisOutcome) (v : α) : Except String α :=
  match o with
  | .ok => .ok v
  | .err => .error "redis operation failed"

/-- hasTransactionBeenUsed: query Redis EXISTS when connected, falling back
to the memory map when not connected or when Redis throws. -/
def hasTransactionBeenUsed (st : ReplayStoreState) (o : RedisOutcome) (h : TxId) :
    Except String Bool :=
  if st.connected then
    match redisTry o ((st.redis.lookup h).isSome) with
    | .ok b => .ok b
    | .error _ => .ok ((st.memory.lookup h).isSome)
  else .ok ((st.memory.lookup h).isSome)

/-- getSettlementRecord: GET from Redis when connected (a miss returns null
without consulting memory); fall back to memory when not connected or when
Redis throws. -/
def getSettlementRecord (st : ReplayStoreState) (o : RedisOutcome) (h : TxId) :
    Except String (Option SettlementRecord) :=
  if st.connected then
    match redisTry o (st.redis.lookup h) with
    | .ok d => .ok d
    | .error _ => .ok (st.memory.lookup h)
  else .ok (st.memory.lookup h)

/-- getCachedSettlement: the stored response, if any. -/
def getCachedSettlement (st : ReplayStoreState) (o : RedisOutcome) (h : TxId) :
    Except String (Option SettleResponse) :=
  (getSettlementRecord st o h).map (fun r => r.map (fun rec => rec.response))

/-- getResourceForTransaction: the stored resource, if any. -/
def getResourceForTransaction (st : ReplayStoreState) (o : RedisOutcome) (h : TxId) :
    Except String (Option String) :=
  (getSettlementRecord st o h).map (fun r => r.map (fun rec => rec.resource))

/-- markPaymentAsSettled: SETEX into Redis when connected, falling back to
the memory map when not connected or when Redis throws. -/
def markPaymentAsSettled (st : ReplayStoreState) (o : RedisOutcome) (h : TxId)
    (resource : String) (resp : SettleResponse) (now : Nat) :
    Except String ReplayStoreState :=
  let record : SettlementRecord := ⟨h, resource, now, resp⟩
  if st.connected then
    match redisTry o () with
    | .ok _ => .ok { st with redis := (h, record) :: st.redis }
    | .error _ => .ok { st with memory := (h, record) :: st.memory }
  else .ok { st with memory := (h, record) :: st.memory }

/-! ## Settlement (src/stellar/settle.ts and the /settle routes) -/

/-- settleStellarPayment (src/stellar/settle.ts). Besides the response it
returns the list of envelopes submitted to the ledger during the call.
submitOk is the outcome of the (single possible) Horizon submission; on
success Horizon reports the hash of the envelope that was submitted.
A missing payload object makes the JS destructuring throw (modelled as
Except.error), which the calling route catches. -/
def settleStellarPayment (cfg : Config) (time : Nat) (submitOk : Bool)
    (pp : PaymentPayload) (_reqs : PaymentRequirements) :
    Except String (SettleResponse × List SubmittedEnv) :=
  match pp.payload with
  | none => .error "TypeError: cannot destructure payload of undefined"
  | some sp =>
    if ¬ hasNetworkConfig pp.network then
      .ok ({ success := false, errorReason := some ("Unsupported network: " ++ pp.network),
             payer := some sp.sourceAccount, transaction := none, network := pp.network }, [])
    else
      match sp.signedTxXdr with
      | some Xdr.bad =>
          .ok ({ success := false, errorReason := some "Transaction failed",
                 payer := some sp.sourceAccount, transaction := none, network := pp.network }, [])
      | some (Xdr.good t) =>
          let env := submittedOf cfg t
          if submitOk then
            .ok ({ success := true, errorReason := none, payer := some sp.sourceAccount,
                   transaction := some (TxId.txHash env), network := pp.network }, [env])
          else
            .ok ({ success := false, errorReason := some "Transaction failed",
                   payer := some sp.sourceAccount, transaction := none, network := pp.network },
                 [env])
      | none =>
          .ok ({ success := true, errorReason := none, payer := some sp.sourceAccount,
                 transaction := some (TxId.mockStellar time), network := pp.network }, [])

/-- Step 4 of the Zod-validated settle route: run settleStellarPayment inside
try/catch and persist successful responses under response.transaction. -/
def settleStep4 (cfg : Config) (time : Nat) (submitOk : Bool) (o : RedisOutcome)
    (pp : PaymentPayload) (reqs : PaymentRequirements) (st : ReplayStoreState) :
    Except String (SettleResponse × ReplayStoreState × List SubmittedEnv) :=
  let payer := pp.payload.map (fun sp => sp.sourceAccount)
  match settleStellarPayment cfg time submitOk pp reqs with
  | .error _ =>
      .ok ({ success := false, errorReason := some "unexpected_settle_error",
             payer := payer, transaction := none, network := pp.network }, st, [])
  | .ok (resp, subs) =>
      if resp.success then
        match resp.transaction with
        | some key =>
          match markPaymentAsSettled st o key reqs.resource resp time with
          | .ok st2 => .ok (resp, st2, subs)
          | .error _ =>
              .ok ({ success := false, errorReason := some "unexpected_settle_error",
                     payer := payer, transaction := none, network := pp.network }, st, subs)
        | none => .ok (resp, st, subs)
      else .ok (resp, st, subs)

/-- The Zod-validated /settle route body after request validation and payload
extraction (settleRoute in routes/settle.ts, Zod revision). Returns the JSON
response, the resulting store state, and the envelopes submitted. A store
error outside the try/catch would propagate (Except.error). -/
def settleRoute (cfg : Config) (time : Nat) (submitOk : Bool) (o : RedisOutcome)
    (pp : PaymentPayload) (reqs : PaymentRequirements) (st : ReplayStoreState) :
    Except String (SettleResponse × ReplayStoreState × List SubmittedEnv) :=
  let payer := pp.payload.map (fun sp => sp.sourceAccount)
  let hashOpt : Option TxId :=
    match pp.payload.bind (fun sp => sp.signedTxXdr), hasNetworkConfig pp.network with
    | some x, true => getTxHashFromXdr x
    | _, _ => none
  match hashOpt with
  | none => settleStep4 cfg time submitOk o pp reqs st
  | some txh =>
    match getCachedSettlement st o txh with
    | .error e => .error e
    | .ok (some cached) => .ok (cached, st, [])
    | .ok none =>
      match hasTransactionBeenUsed st o txh with
      | .error e => .error e
      | .ok true =>
        match getResourceForTransaction st o txh with
        | .error e => .error e
        | .ok _ =>
            .ok ({ success := false,
                   errorReason := some "invalid_exact_stellar_payload_transaction_already_used",
                   payer := payer, transaction := none, network := pp.network }, st, [])
      | .ok false => settleStep4 cfg time submitOk o pp reqs st

/-- The legacy wired /settle route (src/routes/settle.ts): no request
validation and no replay store at all; a payload missing its Stellar body or
its network is answered with a fabricated mock success. -/
def settleRouteLegacy (cfg : Config) (time : Nat) (submitOk : Bool)
    (pp : PaymentPayload) (reqs : PaymentRequirements) :
    SettleResponse × List SubmittedEnv :=
  if pp.payload.isNone ∨ ¬ truthyStr pp.network then
    ({ success := true, errorReason := none, payer := some "mock-payer",
       transaction := some (TxId.mockTxHash time), network := "stellar-testnet" }, [])
  else
    match settleStellarPayment cfg time submitOk pp reqs with
    | .ok (resp, subs) => (resp, subs)
    | .error e =>
        ({ success := false, errorReason := some e,
           payer := (pp.payload.map (fun sp => sp.sourceAccount)),
           transaction := none, network := pp.network }, [])

/-! ## Verification (src/schemes/exact/stellar/facilitator/verify.ts) -/

/-- A Horizon account: its balances as (asset_type, balance-string) pairs. -/
structure HorizonAccount where
  balances : List (String × String)
deriving DecidableEq, Repr

/-- Result of server.loadAccount: the account, a Not Found error, or any
other ledger I/O error. -/
inductive LoadAccountResult where
  | found (acct : HorizonAccount)
  | notFound
  | ioError
deriving DecidableEq, Repr

/-- Split a character list at the first full stop. -/
def breakDot : List Char → List Char × Option (List Char)
  | [] => ([], none)
  | c :: cs =>
    if c = Char.ofNat 46 then ([], some cs)
    else
      let r := breakDot cs
      (c :: r.1, r.2)

/-- Models BigInt(Math.floor(parseFloat(s) * 10_000_000)) on the well-formed
decimal strings Horizon reports (at most seven fractional digits, small
enough for the double arithmetic to be exact); none models the strings on
which the BigInt conversion throws inside the try block (parseFloat returned
NaN or infinity). The rounding of IEEE-754 doubles on out-of-range values is
outside this model. -/
def balanceToStroops (s : String) : Option Int :=
  match breakDot s.data with
  | (w, none) => (digitsVal w).map (fun n => (n : Int) * 10000000)
  | (w, some f) =>
      if f.length ≤ 7 then
        match digitsVal w, digitsVal (f ++ List.replicate (7 - f.length) (Char.ofNat 48)) with
        | some wn, some fn => some ((wn : Int) * 10000000 + (fn : Int))
        | _, _ => none
      else none

/-- verify (src/schemes/exact/stellar/facilitator/verify.ts): checks the
caller-claimed payload fields against the requirements and the source
account state. The two BigInt conversions before the try block are the only
statements that can throw out of the function (Except.error). -/
def verify (pp : PaymentPayload) (reqs : PaymentRequirements)
    (loadAccount : LoadAccountResult) : Except String VerifyResponse :=
  let payer := pp.payload.map (fun sp => sp.sourceAccount)
  if ¬ (pp.scheme = SCHEME ∧ reqs.scheme = SCHEME) then
    .ok { isValid := false, invalidReason := some "unsupported_scheme", payer := payer }
  else if pp.network ≠ reqs.network then
    .ok { isValid := false,
          invalidReason := some "invalid_exact_stellar_payload_network_mismatch",
          payer := payer }
  else
    match pp.payload with
    | none =>
        .ok { isValid := false, invalidReason := some "invalid_payload", payer := none }
    | some sp =>
      if ¬ (truthyStr sp.sourceAccount ∧ truthyStr sp.amount ∧ truthyStr sp.destination) then
        .ok { isValid := false,
              invalidReason := some "invalid_exact_stellar_payload_missing_required_fields",
              payer := payer }
      else if sp.destination ≠ reqs.payTo then
        .ok { isValid := false,
              invalidReason := some "invalid_exact_stellar_payload_destination_mismatch",
              payer := payer }
      else
        match jsBigInt sp.amount with
        | none => .error "SyntaxError: cannot convert amount to a BigInt"
        | some payloadAmount =>
          match jsBigInt reqs.maxAmountRequired with
          | none => .error "SyntaxError: cannot convert maxAmountRequired to a BigInt"
          | some requiredAmount =>
            if payloadAmount < requiredAmount then
              .ok { isValid := false,
                    invalidReason := some "invalid_exact_stellar_payload_amount_mismatch",
                    payer := payer }
            else if truthyStr reqs.asset ∧ sp.asset ≠ reqs.asset then
              .ok { isValid := false,
                    invalidReason := some "invalid_exact_stellar_payload_asset_mismatch",
                    payer := payer }
            else if ¬ hasNetworkConfig pp.network then
              .ok { isValid := false, invalidReason := some "invalid_network", payer := payer }
            else
              -- try block: loadAccount, native balance check, XDR parse check
              match loadAccount with
              | .notFound =>
                  .ok { isValid := false,
                        invalidReason :=
                          some "invalid_exact_stellar_payload_source_account_not_found",
                        payer := payer }
              | .ioError =>
                  .ok { isValid := false, invalidReason := some "unexpected_verify_error",
                        payer := payer }
              | .found acct =>
                let balanceVerdict : Option VerifyResponse :=
                  if sp.asset = "native" then
                    match acct.balances.find? (fun b => b.fst = "native") with
                    | some b =>
                      match balanceToStroops b.snd with
                      | none =>
                          -- BigInt(NaN) throws inside the try block: caught below
                          some { isValid := false,
                                 invalidReason := some "unexpected_verify_error",
                                 payer := payer }
                      | some bal =>
                          if bal < payloadAmount then
                            some { isValid := false, invalidReason := some "insufficient_funds",
                                   payer := payer }
                          else none
                    | none => none
                  else none
                match balanceVerdict with
                | some v => .ok v
                | none =>
                  match sp.signedTxXdr with
                  | some Xdr.bad =>
                      .ok { isValid := false,
                            invalidReason := some "invalid_exact_stellar_payload_invalid_xdr",
                            payer := payer }
                  | _ => .ok { isValid := true, invalidReason := none, payer := payer }

/-! ## Request validation (src/types.ts) -/

/-- A parsed JSON value, as far as the validators inspect one. -/
inductive JVal where
  | jnull
  | jbool (b : Bool)
  | jnum (n : Int)
  | jstr (s : String)
  | jobj (fields : List (String × JVal))

/-- JavaScript truthiness of a JSON value. -/
def JVal.truthy : JVal → Bool
  | .jnull => false
  | .jbool b => b
  | .jnum n => n != 0
  | .jstr s => s != ""
  | .jobj _ => true

/-- typeof v === "object" (null is handled by the truthiness guard first). -/
def JVal.isObj : JVal → Bool
  | .jobj _ => true
  | .jnull => true
  | _ => false

/-- Property access obj.k; none models undefined. -/
def JVal.get (v : JVal) (k : String) : Option JVal :=
  match v with
  | .jobj fs => fs.lookup k
  | _ => none

/-- Strict equality with the number 1 (obj.x402Version !== 1). -/
def JVal.isVersionOne : JVal → Bool
  | .jnum n => n == 1
  | _ => false

/-- SUPPORTED_KINDS: the declared (scheme, network) combinations. -/
def SUPPORTED_KINDS : List (String × String) := [("exact", "stellar-testnet")]

/-- Result of payload validation. -/
inductive PaymentHeaderValidation where
  | ok (payload : JVal)
  | fail (error : String)

/-- validatePaymentPayload (src/types.ts): structural validation of a decoded
payment payload object. Pure: it only inspects its argument. -/
def validatePaymentPayload (payload : JVal) : PaymentHeaderValidation :=
  if ¬ (payload.truthy ∧ payload.isObj) then
    .fail "Invalid paymentPayload: expected JSON object"
  else
    match payload.get "x402Version" with
    | none => .fail "Invalid paymentPayload: missing x402Version"
    | some ver =>
      if ¬ ver.isVersionOne then
        .fail "Invalid paymentPayload: unsupported x402Version"
      else
        match payload.get "scheme" with
        | some (.jstr s) =>
          if s = "" then .fail "Invalid paymentPayload: missing or invalid scheme"
          else
            match payload.get "network" with
            | some (.jstr n) =>
              if n = "" then .fail "Invalid paymentPayload: missing or invalid network"
              else
                match payload.get "payload" with
                | some pl =>
                  if ¬ (pl.truthy ∧ pl.isObj) then
                    .fail "Invalid paymentPayload: missing or invalid payload"
                  else if SUPPORTED_KINDS.contains (s, n) then .ok payload
                  else .fail "Unsupported (scheme, network) combination"
                | none => .fail "Invalid paymentPayload: missing or invalid payload"
            | _ => .fail "Invalid paymentPayload: missing or invalid network"
        | _ => .fail "Invalid paymentPayload: missing or invalid scheme"

/-- The transport-decoding outcome feeding decodeAndValidatePaymentHeader:
base64 decoding failed, JSON parsing failed, or a parsed value. -/
inductive HeaderParse where
  | badBase64
  | badJson
  | parsed (v : JVal)

/-- decodeAndValidatePaymentHeader (src/types.ts): decode the transport
encoding, then run the same structural checks with header-specific
messages. Pure: it only inspects its argument. -/
def decodeAndValidatePaymentHeader (h : HeaderParse) : PaymentHeaderValidation :=
  match h with
  | .badBase64 => .fail "Invalid paymentHeader: failed to base64 decode"
  | .badJson => .fail "Invalid paymentHeader: failed to parse JSON"
  | .parsed payload =>
    if ¬ (payload.truthy ∧ payload.isObj) then
      .fail "Invalid paymentHeader: expected JSON object"
    else
      match payload.get "x402Version" with
      | none => .fail "Invalid paymentHeader: missing x402Version"
      | some ver =>
        if ¬ ver.isVersionOne then
          .fail "Invalid paymentHeader: unsupported x402Version"
        else
          match payload.get "scheme" with
          | some (.jstr s) =>
            if s = "" then .fail "Invalid paymentHeader: missing or invalid scheme"
            else
              match payload.get "network" with
              | some (.jstr n) =>
                if n = "" then .fail "Invalid paymentHeader: missing or invalid network"
                else
                  match payload.get "payload" with
                  | some pl =>
                    if ¬ (pl.truthy ∧ pl.isObj) then
                      .fail "Invalid paymentHeader: missing or invalid payload"
                    else if SUPPORTED_KINDS.contains (s, n) then .ok payload
                    else .fail "Unsupported (scheme, network) combination"
                  | none => .fail "Invalid paymentHeader: missing or invalid payload"
              | _ => .fail "Invalid paymentHeader: missing or invalid network"
          | _ => .fail "Invalid paymentHeader: missing or invalid scheme"

/-- The acceptance condition of the structural validators, stated as one
boolean predicate: protocol version 1, scheme and network present string
fields forming a declared supported combination, and a truthy object in the
payload field. -/
def acceptedPayload (v : JVal) : Bool :=
  v.truthy && v.isObj
    && (match v.get "x402Version" with
        | some ver => ver.isVersionOne
        | none => false)
    && (match v.get "scheme", v.get "network" with
        | some (.jstr s), some (.jstr n) => SUPPORTED_KINDS.contains (s, n)
        | _, _ => false)
    && (match v.get "payload" with
        | some pl => pl.truthy && pl.isObj
        | none => false)

/-- The guard region of verify in which the source-account lookup happens:
scheme and network accepted, payload present with truthy required fields,
claimed destination equal to payTo, both amount strings convertible, amount
sufficient, asset accepted, and a configured network. -/
def verifyReachesLedger (pp : PaymentPayload) (reqs : PaymentRequirements) : Bool :=
  if ¬ (pp.scheme = SCHEME ∧ reqs.scheme = SCHEME) then false
  else if pp.network ≠ reqs.network then false
  else
    match pp.payload with
    | none => false
    | some sp =>
      if ¬ (truthyStr sp.sourceAccount ∧ truthyStr sp.amount ∧ truthyStr sp.destination) then
        false
      else if sp.destination ≠ reqs.payTo then false
      else
        match jsBigInt sp.amount with
        | none => false
        | some payloadAmount =>
          match jsBigInt reqs.maxAmountRequired with
          | none => false
          | some requiredAmount =>
            if payloadAmount < requiredAmount then false
            else if truthyStr reqs.asset ∧ sp.asset ≠ reqs.asset then false
            else hasNetworkConfig pp.network

/-- Whether a validation result is an acceptance. -/
def isOk : PaymentHeaderValidation → Bool
  | .ok _ => true
  | .fail _ => false

/-! ## Concrete fixtures used to evaluate the embedded code -/

/-- A concrete signed client transaction paying 1000000 stroops to GDEST. -/
def sampleTx : InnerTx :=
  { source := "GSRC", destination := "GDEST", amount := 1000000, asset := "native", seqNum := 1 }

/-- A concrete client transaction whose terms contradict the claimed fields
of mismatchedPayload below. -/
def evilTx : InnerTx :=
  { source := "GSRC", destination := "GEVIL", amount := 1, asset := "FAKE", seqNum := 9 }

/-- A validated payload whose claimed fields match sampleTx. -/
def samplePayload : PaymentPayload :=
  { x402Version := 1, scheme := "exact", network := "stellar-testnet",
    payload := some { signedTxXdr := some (Xdr.good sampleTx), sourceAccount := "GSRC",
                      amount := "1000000", destination := "GDEST", asset := "native" } }

/-- A payload whose claimed fields satisfy the requirements while its signed
envelope (evilTx) pays a different destination, amount and asset. -/
def mismatchedPayload : PaymentPayload :=
  { x402Version := 1, scheme := "exact", network := "stellar-testnet",
    payload := some { signedTxXdr := some (Xdr.good evilTx), sourceAccount := "GSRC",
                      amount := "1000000", destination := "GDEST", asset := "native" } }

/-- A payload whose claimed amount is not a numeric string. -/
def badAmountPayload : PaymentPayload :=
  { x402Version := 1, scheme := "exact", network := "stellar-testnet",
    payload := some { signedTxXdr := none, sourceAccount := "GSRC",
                      amount := "abc", destination := "GDEST", asset := "native" } }

/-- Requirements for resource /x matched by samplePayload. -/
def reqsA : PaymentRequirements :=
  { scheme := "exact", network := "stellar-testnet", maxAmountRequired := "1000000",
    resource := "/x", payTo := "GDEST", asset := "native" }

/-- The same requirements for a different resource /y. -/
def reqsB : PaymentRequirements := { reqsA with resource := "/y" }

/-- The store at process start: Redis not connected, both maps empty. -/
def emptyStore : ReplayStoreState := { connected := false, redis := [], memory := [] }

/-- Facilitator without a configured secret key (no fee sponsorship). -/
def noSponsor : Config := { facilitatorKey := none }

/-- Facilitator with a configured secret key (fee sponsorship active). -/
def sponsor : Config := { facilitatorKey := some "FKEY" }

/-- A source account holding 100 XLM. -/
def richAccount : HorizonAccount := { balances := [("native", "100.0000000")] }

/-- A raw inbound assertion that passes structural validation. -/
def goodRaw : JVal :=
  JVal.jobj [("x402Version", JVal.jnum 1), ("scheme", JVal.jstr "exact"),
             ("network", JVal.jstr "stellar-testnet"),
             ("payload", JVal.jobj [("signedTxXdr", JVal.jstr "AAAA")])]

/-! ## Theorems -/

/-- The store write never surfaces an error: it always returns a state. -/
theorem markPaymentAsSettled_isOk (st : ReplayStoreState) (o : RedisOutcome) (h : TxId)
    (resource : String) (resp : SettleResponse) (now : Nat) :
    ∃ st2, markPaymentAsSettled st o h resource resp now = .ok st2 := by
  by_cases hc : st.connected = true
  · cases o
    · exact ⟨{ st with redis := (h, ⟨h, resource, now, resp⟩) :: st.redis },
        by simp [markPaymentAsSettled, hc, redisTry]⟩
    · exact ⟨{ st with memory := (h, ⟨h, resource, now, resp⟩) :: st.memory },
        by simp [markPaymentAsSettled, hc, redisTry]⟩
  · exact ⟨{ st with memory := (h, ⟨h, resource, now, resp⟩) :: st.memory },
      by simp [markPaymentAsSettled, hc]⟩

/-- C1: settling envelope T for resource /x and then for resource /y does
not produce the transaction-already-used failure the spec requires: the
cached-settlement check precedes the replay check and ignores the resource,
so the second call returns the stored /x success response unchanged (and the
replay-rejection branch is unreachable whenever a record exists). -/
theorem settle_cross_resource_returns_cached_success :
    settleRoute noSponsor 100 true RedisOutcome.ok samplePayload reqsA emptyStore
      = .ok ({ success := true, errorReason := none, payer := some "GSRC",
               transaction := some (TxId.txHash (SubmittedEnv.direct sampleTx)),
               network := "stellar-testnet" },
             { connected := false, redis := [],
               memory := [(TxId.txHash (SubmittedEnv.direct sampleTx),
                 { txHash := TxId.txHash (SubmittedEnv.direct sampleTx), resource := "/x",
                   settledAt := 100,
                   response := { success := true, errorReason := none, payer := some "GSRC",
                                 transaction := some (TxId.txHash (SubmittedEnv.direct sampleTx)),
                                 network := "stellar-testnet" } })] },
             [SubmittedEnv.direct sampleTx])
    ∧ settleRoute noSponsor 200 true RedisOutcome.ok samplePayload reqsB
        { connected := false, redis := [],
          memory := [(TxId.txHash (SubmittedEnv.direct sampleTx),
            { txHash := TxId.txHash (SubmittedEnv.direct sampleTx), resource := "/x",
              settledAt := 100,
              response := { success := true, errorReason := none, payer := some "GSRC",
                            transaction := some (TxId.txHash (SubmittedEnv.direct sampleTx)),
                            network := "stellar-testnet" } })] }
      = .ok ({ success := true, errorReason := none, payer := some "GSRC",
               transaction := some (TxId.txHash (SubmittedEnv.direct sampleTx)),
               network := "stellar-testnet" },
             { connected := false, redis := [],
               memory := [(TxId.txHash (SubmittedEnv.direct sampleTx),
                 { txHash := TxId.txHash (SubmittedEnv.direct sampleTx), resource := "/x",
                   settledAt := 100,
                   response := { success := true, errorReason := none, payer := some "GSRC",
                                 transaction := some (TxId.txHash (SubmittedEnv.direct sampleTx)),
                                 network := "stellar-testnet" } })] },
             ([] : List SubmittedEnv))
    ∧ reqsA.resource ≠ reqsB.resource := by
  refine ⟨rfl, rfl, by decide⟩

/-- C3 counterexample: with a facilitator key configured, a successful settle
checks the replay key computed from the caller envelope (hash of the direct
envelope) but persists the record under the ledger-reported hash of the
fee-bump wrapper, so the key checked and the key stored differ and the stored
key is not the hash of the caller's signed envelope. -/
theorem settle_sponsor_stores_feebump_hash :
    settleRoute sponsor 100 true RedisOutcome.ok samplePayload reqsA emptyStore
      = .ok ({ success := true, errorReason := none, payer := some "GSRC",
               transaction := some (TxId.txHash (SubmittedEnv.feeBump "FKEY" sampleTx)),
               network := "stellar-testnet" },
             { connected := false, redis := [],
               memory := [(TxId.txHash (SubmittedEnv.feeBump "FKEY" sampleTx),
                 { txHash := TxId.txHash (SubmittedEnv.feeBump "FKEY" sampleTx),
                   resource := "/x", settledAt := 100,
                   response := { success := true, errorReason := none, payer := some "GSRC",
                                 transaction :=
                                   some (TxId.txHash (SubmittedEnv.feeBump "FKEY" sampleTx)),
                                 network := "stellar-testnet" } })] },
             [SubmittedEnv.feeBump "FKEY" sampleTx])
    ∧ getTxHashFromXdr (Xdr.good sampleTx) = some (TxId.txHash (SubmittedEnv.direct sampleTx))
    ∧ TxId.txHash (SubmittedEnv.feeBump "FKEY" sampleTx)
        ≠ TxId.txHash (SubmittedEnv.direct sampleTx)
    ∧ List.lookup (TxId.txHash (SubmittedEnv.direct sampleTx))
        [(TxId.txHash (SubmittedEnv.feeBump "FKEY" sampleTx),
          ({ txHash := TxId.txHash (SubmittedEnv.feeBump "FKEY" sampleTx),
             resource := "/x", settledAt := 100,
             response := { success := true, errorReason := none, payer := some "GSRC",
                           transaction :=
                             some (TxId.txHash (SubmittedEnv.feeBump "FKEY" sampleTx)),
                           network := "stellar-testnet" } } : SettlementRecord))] = none := by
  refine ⟨rfl, rfl, by decide, by decide⟩

/-- C4 counterexample: with a facilitator key configured, two settle calls
with the same envelope and resource each reach the ledger (the record is
stored under the fee-bump hash while the lookup key is the caller-envelope
hash, so the second call misses the cache and resubmits): two submissions,
not exactly one. -/
theorem settle_sponsor_double_submission :
    settleRoute sponsor 100 true RedisOutcome.ok samplePayload reqsA emptyStore
      = .ok ({ success := true, errorReason := none, payer := some "GSRC",
               transaction := some (TxId.txHash (SubmittedEnv.feeBump "FKEY" sampleTx)),
               network := "stellar-testnet" },
             { connected := false, redis := [],
               memory := [(TxId.txHash (SubmittedEnv.feeBump "FKEY" sampleTx),
                 { txHash := TxId.txHash (SubmittedEnv.feeBump "FKEY" sampleTx),
                   resource := "/x", settledAt := 100,
                   response := { success := true, errorReason := none, payer := some "GSRC",
                                 transaction :=
                                   some (TxId.txHash (SubmittedEnv.feeBump "FKEY" sampleTx)),
                                 network := "stellar-testnet" } })] },
             [SubmittedEnv.feeBump "FKEY" sampleTx])
    ∧ settleRoute sponsor 200 true RedisOutcome.ok samplePayload reqsA
        { connected := false, redis := [],
          memory := [(TxId.txHash (SubmittedEnv.feeBump "FKEY" sampleTx),
            { txHash := TxId.txHash (SubmittedEnv.feeBump "FKEY" sampleTx),
              resource := "/x", settledAt := 100,
              response := { success := true, errorReason := none, payer := some "GSRC",
                            transaction :=
                              some (TxId.txHash (SubmittedEnv.feeBump "FKEY" sampleTx)),
                            network := "stellar-testnet" } })] }
      = .ok ({ success := true, errorReason := none, payer := some "GSRC",
               transaction := some (TxId.txHash (SubmittedEnv.feeBump "FKEY" sampleTx)),
               network := "stellar-testnet" },
             { connected := false, redis := [],
               memory := [(TxId.txHash (SubmittedEnv.feeBump "FKEY" sampleTx),
                 { txHash := TxId.txHash (SubmittedEnv.feeBump "FKEY" sampleTx),
                   resource := "/x", settledAt := 200,
                   response := { success := true, errorReason := none, payer := some "GSRC",
                                 transaction :=
                                   some (TxId.txHash (SubmittedEnv.feeBump "FKEY" sampleTx)),
                                 network := "stellar-testnet" } }),
                (TxId.txHash (SubmittedEnv.feeBump "FKEY" sampleTx),
                 { txHash := TxId.txHash (SubmittedEnv.feeBump "FKEY" sampleTx),
                   resource := "/x", settledAt := 100,
                   response := { success := true, errorReason := none, payer := some "GSRC",
                                 transaction :=
                                   some (TxId.txHash (SubmittedEnv.feeBump "FKEY" sampleTx)),
                                 network := "stellar-testnet" } })] },
             [SubmittedEnv.feeBump "FKEY" sampleTx])
    ∧ ([SubmittedEnv.feeBump "FKEY" sampleTx] ++ [SubmittedEnv.feeBump "FKEY" sampleTx]).length
        ≠ 1 := by
  refine ⟨rfl, rfl, by decide⟩

/-- C7 counterexample: a settlement attempt rejected by the ledger (the
terminal outcome of the submission) is not persisted: the store is returned
unchanged, so no failure outcome ever becomes the identity's stored record. -/
theorem settle_rejection_not_persisted :
    settleRoute noSponsor 100 false RedisOutcome.ok samplePayload reqsA emptyStore
      = .ok ({ success := false, errorReason := some "Transaction failed", payer := some "GSRC",
               transaction := none, network := "stellar-testnet" },
             emptyStore, [SubmittedEnv.direct sampleTx])
    ∧ emptyStore.memory = [] ∧ emptyStore.redis = [] := by
  refine ⟨rfl, rfl, rfl⟩

/-- C2 counterexample: a payload whose claimed destination, amount and asset
satisfy the requirements passes verification even though the signed envelope
it carries pays a different destination, amount and asset: the comparisons
use the caller-claimed fields, and a claimed/extracted mismatch is not
detected. -/
theorem verify_trusts_claimed_fields :
    verify mismatchedPayload reqsA (LoadAccountResult.found richAccount)
      = .ok { isValid := true, invalidReason := none, payer := some "GSRC" }
    ∧ mismatchedPayload.payload.map (fun sp => sp.destination) = some "GDEST"
    ∧ evilTx.destination = "GEVIL"
    ∧ mismatchedPayload.payload.map (fun sp => sp.amount) = some "1000000"
    ∧ evilTx.amount = 1
    ∧ mismatchedPayload.payload.map (fun sp => sp.asset) = some "native"
    ∧ evilTx.asset = "FAKE"
    ∧ mismatchedPayload.payload.bind (fun sp => sp.signedTxXdr) = some (Xdr.good evilTx) := by
  refine ⟨rfl, rfl, rfl, rfl, rfl, rfl, rfl, rfl⟩

/-- C6 counterexample: verify throws outward (an uncaught BigInt SyntaxError)
when the claimed amount is not a numeric string, instead of returning a
verdict value. -/
theorem verify_throws_on_nonnumeric_amount :
    verify badAmountPayload reqsA (LoadAccountResult.found richAccount)
      = .error "SyntaxError: cannot convert amount to a BigInt" := rfl

/-- C5: when the assertion payload lacks a signedTxXdr the settle scheme
answers success with the fabricated identity mock-stellar-tx-(now) without
submitting anything and without any replay check (the result holds for every
store state), and when the route-level payload or network is missing
entirely the legacy wired route answers success with the fabricated identity
mock-tx-hash-(now), again without any submission. -/
theorem settle_mock_paths :
    (∀ (cfg : Config) (time : Nat) (submitOk : Bool) (pp : PaymentPayload)
       (reqs : PaymentRequirements),
      pp.payload = none ∨ pp.network = "" →
      settleRouteLegacy cfg time submitOk pp reqs
        = ({ success := true, errorReason := none, payer := some "mock-payer",
             transaction := some (TxId.mockTxHash time), network := "stellar-testnet" },
           ([] : List SubmittedEnv)))
    ∧ (∀ (cfg : Config) (time : Nat) (submitOk : Bool) (o : RedisOutcome)
         (pp : PaymentPayload) (sp : StellarPayload) (reqs : PaymentRequirements)
         (st : ReplayStoreState),
        pp.payload = some sp → sp.signedTxXdr = none → hasNetworkConfig pp.network = true →
        ∃ st2, settleRoute cfg time submitOk o pp reqs st
          = .ok ({ success := true, errorReason := none, payer := some sp.sourceAccount,
                   transaction := some (TxId.mockStellar time), network := pp.network },
                 st2, ([] : List SubmittedEnv))) := by
  constructor
  · intro cfg time submitOk pp reqs h
    rcases h with h | h
    · simp [settleRouteLegacy, h]
    · simp [settleRouteLegacy, truthyStr, h]
  · intro cfg time submitOk o pp sp reqs st hp hx hn
    obtain ⟨st2, hst2⟩ := markPaymentAsSettled_isOk st o (TxId.mockStellar time) reqs.resource
      { success := true, errorReason := none, payer := some sp.sourceAccount,
        transaction := some (TxId.mockStellar time), network := pp.network } time
    exact ⟨st2, by simp [settleRoute, settleStep4, settleStellarPayment, hp, hx, hn, hst2]⟩

/-- C5 witness: the mock paths evaluated at a concrete assertion lacking its
signed envelope and at a concrete request lacking its payload. -/
theorem settle_mock_paths_witness :
    settleRouteLegacy noSponsor 7 true
        { x402Version := 1, scheme := "exact", network := "stellar-testnet", payload := none }
        reqsA
      = ({ success := true, errorReason := none, payer := some "mock-payer",
           transaction := some (TxId.mockTxHash 7), network := "stellar-testnet" },
         ([] : List SubmittedEnv))
    ∧ ∃ st2, settleRoute noSponsor 7 true RedisOutcome.ok
        { x402Version := 1, scheme := "exact", network := "stellar-testnet",
          payload := some { signedTxXdr := none, sourceAccount := "GSRC", amount := "1000000",
                            destination := "GDEST", asset := "native" } }
        reqsA emptyStore
      = .ok ({ success := true, errorReason := none, payer := some "GSRC",
               transaction := some (TxId.mockStellar 7), network := "stellar-testnet" },
             st2, ([] : List SubmittedEnv)) := by
  constructor
  · exact settle_mock_paths.1 noSponsor 7 true
      { x402Version := 1, scheme := "exact", network := "stellar-testnet", payload := none }
      reqsA (Or.inl rfl)
  · exact settle_mock_paths.2 noSponsor 7 true RedisOutcome.ok
      { x402Version := 1, scheme := "exact", network := "stellar-testnet",
        payload := some { signedTxXdr := none, sourceAccount := "GSRC", amount := "1000000",
                          destination := "GDEST", asset := "native" } }
      { signedTxXdr := none, sourceAccount := "GSRC", amount := "1000000",
        destination := "GDEST", asset := "native" }
      reqsA emptyStore rfl rfl rfl

/-- C9: when the Redis backend is not connected or its call throws, every
replay-store operation completes against the in-memory map and returns a
value (never an error): the existence check, the record and cached-response
reads, the resource read, and the write, whose fallback updates the memory
map. -/
theorem replay_store_memory_fallback :
    ∀ (st : ReplayStoreState) (o : RedisOutcome) (h k : TxId) (resource : String)
      (resp : SettleResponse) (now : Nat),
      st.connected = false ∨ o = RedisOutcome.err →
      hasTransactionBeenUsed st o h = .ok ((st.memory.lookup h).isSome)
      ∧ getSettlementRecord st o h = .ok (st.memory.lookup h)
      ∧ getCachedSettlement st o h = .ok ((st.memory.lookup h).map (fun r => r.response))
      ∧ getResourceForTransaction st o h = .ok ((st.memory.lookup h).map (fun r => r.resource))
      ∧ markPaymentAsSettled st o k resource resp now
          = .ok { st with memory := (k, ⟨k, resource, now, resp⟩) :: st.memory } := by
  intro st o h k resource resp now hfail
  rcases hfail with hc | ho
  · refine ⟨?_, ?_, ?_, ?_, ?_⟩ <;>
      simp [hasTransactionBeenUsed, getSettlementRecord, getCachedSettlement,
        getResourceForTransaction, markPaymentAsSettled, Except.map, hc]
  · subst ho
    by_cases hc : st.connected = true <;>
      refine ⟨?_, ?_, ?_, ?_, ?_⟩ <;>
        simp [hasTransactionBeenUsed, getSettlementRecord, getCachedSettlement,
          getResourceForTransaction, markPaymentAsSettled, Except.map, redisTry, hc]

/-- C9 witness: the fallback operations evaluated on a concrete store whose
backend call throws while a record for envelope T sits in memory. -/
theorem replay_store_memory_fallback_witness :
    hasTransactionBeenUsed
        { connected := true, redis := [],
          memory := [(TxId.mockStellar 3,
            { txHash := TxId.mockStellar 3, resource := "/x", settledAt := 3,
              response := { success := true, errorReason := none, payer := some "GSRC",
                            transaction := some (TxId.mockStellar 3),
                            network := "stellar-testnet" } })] }
        RedisOutcome.err (TxId.mockStellar 3) = .ok true
    ∧ markPaymentAsSettled emptyStore RedisOutcome.err (TxId.mockStellar 4) "/y"
        { success := true, errorReason := none, payer := some "GSRC",
          transaction := some (TxId.mockStellar 4), network := "stellar-testnet" } 4
      = .ok { connected := false, redis := [],
              memory := [(TxId.mockStellar 4,
                { txHash := TxId.mockStellar 4, resource := "/y", settledAt := 4,
                  response := { success := true, errorReason := none, payer := some "GSRC",
                                transaction := some (TxId.mockStellar 4),
                                network := "stellar-testnet" } })] } := by
  constructor
  · exact ((replay_store_memory_fallback
      { connected := true, redis := [],
        memory := [(TxId.mockStellar 3,
          { txHash := TxId.mockStellar 3, resource := "/x", settledAt := 3,
            response := { success := true, errorReason := none, payer := some "GSRC",
                          transaction := some (TxId.mockStellar 3),
                          network := "stellar-testnet" } })] }
      RedisOutcome.err (TxId.mockStellar 3)
      (TxId.mockStellar 3) "/x"
      ({ success := true, errorReason := none, payer := some "GSRC",
         transaction := some (TxId.mockStellar 3), network := "stellar-testnet" }) 3
      (Or.inr rfl)).1)
  · exact ((replay_store_memory_fallback emptyStore RedisOutcome.err (TxId.mockStellar 4)
      (TxId.mockStellar 4) "/y"
      ({ success := true, errorReason := none, payer := some "GSRC",
         transaction := some (TxId.mockStellar 4), network := "stellar-testnet" }) 4
      (Or.inr rfl)).2.2.2.2)

/-- C10: both structural validators accept a raw assertion exactly when the
protocol version is 1, scheme and network are present strings whose pair is
in the declared supported-combination set, and the embedded payload is a
truthy object; on acceptance the decoded assertion is returned unchanged,
and transport-decoding failures are rejected. The validators are pure
functions of their argument by construction. -/
theorem decode_characterization (v : JVal) :
    isOk (validatePaymentPayload v) = acceptedPayload v
    ∧ isOk (decodeAndValidatePaymentHeader (HeaderParse.parsed v)) = acceptedPayload v
    ∧ (acceptedPayload v = true →
        validatePaymentPayload v = .ok v
        ∧ decodeAndValidatePaymentHeader (HeaderParse.parsed v) = .ok v)
    ∧ decodeAndValidatePaymentHeader HeaderParse.badBase64
        = .fail "Invalid paymentHeader: failed to base64 decode"
    ∧ decodeAndValidatePaymentHeader HeaderParse.badJson
        = .fail "Invalid paymentHeader: failed to parse JSON" := by
  cases v with
  | jnull =>
      simp [validatePaymentPayload, decodeAndValidatePaymentHeader, acceptedPayload,
        JVal.truthy, JVal.isObj, JVal.get, isOk]
  | jbool b =>
      cases b <;>
        simp [validatePaymentPayload, decodeAndValidatePaymentHeader, acceptedPayload,
          JVal.truthy, JVal.isObj, JVal.get, isOk]
  | jnum n =>
      simp [validatePaymentPayload, decodeAndValidatePaymentHeader, acceptedPayload,
        JVal.truthy, JVal.isObj, JVal.get, isOk]
  | jstr s =>
      simp [validatePaymentPayload, decodeAndValidatePaymentHeader, acceptedPayload,
        JVal.truthy, JVal.isObj, JVal.get, isOk]
  | jobj fs =>
    cases hver : List.lookup "x402Version" fs with
    | none =>
        simp [validatePaymentPayload, decodeAndValidatePaymentHeader, acceptedPayload,
          JVal.truthy, JVal.isObj, JVal.get, isOk, hver]
    | some ver =>
      by_cases hv1 : ver.isVersionOne = true
      case neg =>
        simp [validatePaymentPayload, decodeAndValidatePaymentHeader, acceptedPayload,
          JVal.truthy, JVal.isObj, JVal.get, isOk, hver, hv1]
      case pos =>
        cases hs : List.lookup "scheme" fs with
        | none =>
            simp [validatePaymentPayload, decodeAndValidatePaymentHeader, acceptedPayload,
              JVal.truthy, JVal.isObj, JVal.get, isOk, hver, hv1, hs]
        | some w =>
          cases w with
          | jnull =>
              simp [validatePaymentPayload, decodeAndValidatePaymentHeader, acceptedPayload,
                JVal.truthy, JVal.isObj, JVal.get, isOk, hver, hv1, hs]
          | jbool b =>
              simp [validatePaymentPayload, decodeAndValidatePaymentHeader, acceptedPayload,
                JVal.truthy, JVal.isObj, JVal.get, isOk, hver, hv1, hs]
          | jnum m =>
              simp [validatePaymentPayload, decodeAndValidatePaymentHeader, acceptedPayload,
                JVal.truthy, JVal.isObj, JVal.get, isOk, hver, hv1, hs]
          | jobj gs =>
              simp [validatePaymentPayload, decodeAndValidatePaymentHeader, acceptedPayload,
                JVal.truthy, JVal.isObj, JVal.get, isOk, hver, hv1, hs]
          | jstr s =>
            cases hn : List.lookup "network" fs with
            | none =>
                by_cases hse : s = "" <;>
                  simp [validatePaymentPayload, decodeAndValidatePaymentHeader, acceptedPayload,
                    JVal.truthy, JVal.isObj, JVal.get, isOk, hver, hv1, hs, hn, hse]
            | some w2 =>
              cases w2 with
              | jnull =>
                  by_cases hse : s = "" <;>
                    simp [validatePaymentPayload, decodeAndValidatePaymentHeader, acceptedPayload,
                      JVal.truthy, JVal.isObj, JVal.get, isOk, hver, hv1, hs, hn, hse]
              | jbool b =>
                  by_cases hse : s = "" <;>
                    simp [validatePaymentPayload, decodeAndValidatePaymentHeader, acceptedPayload,
                      JVal.truthy, JVal.isObj, JVal.get, isOk, hver, hv1, hs, hn, hse]
              | jnum m =>
                  by_cases hse : s = "" <;>
                    simp [validatePaymentPayload, decodeAndValidatePaymentHeader, acceptedPayload,
                      JVal.truthy, JVal.isObj, JVal.get, isOk, hver, hv1, hs, hn, hse]
              | jobj gs =>
                  by_cases hse : s = "" <;>
                    simp [validatePaymentPayload, decodeAndValidatePaymentHeader, acceptedPayload,
                      JVal.truthy, JVal.isObj, JVal.get, isOk, hver, hv1, hs, hn, hse]
              | jstr n =>
                by_cases hse : s = ""
                case pos =>
                  subst hse
                  simp [validatePaymentPayload, decodeAndValidatePaymentHeader, acceptedPayload,
                    JVal.truthy, JVal.isObj, JVal.get, isOk, hver, hv1, hs, hn, SUPPORTED_KINDS]
                case neg =>
                  by_cases hne : n = ""
                  case pos =>
                    subst hne
                    simp [validatePaymentPayload, decodeAndValidatePaymentHeader, acceptedPayload,
                      JVal.truthy, JVal.isObj, JVal.get, isOk, hver, hv1, hs, hn, hse,
                      SUPPORTED_KINDS]
                  case neg =>
                    cases hp : List.lookup "payload" fs with
                    | none =>
                        simp [validatePaymentPayload, decodeAndValidatePaymentHeader,
                          acceptedPayload, JVal.truthy, JVal.isObj, JVal.get, isOk,
                          hver, hv1, hs, hn, hse, hne, hp]
                    | some pl =>
                      cases pl with
                      | jnull =>
                          simp [validatePaymentPayload, decodeAndValidatePaymentHeader,
                            acceptedPayload, JVal.truthy, JVal.isObj, JVal.get, isOk,
                            hver, hv1, hs, hn, hse, hne, hp]
                      | jbool b =>
                          cases b <;>
                            simp [validatePaymentPayload, decodeAndValidatePaymentHeader,
                              acceptedPayload, JVal.truthy, JVal.isObj, JVal.get, isOk,
                              hver, hv1, hs, hn, hse, hne, hp]
                      | jnum m =>
                          by_cases hm : m = 0 <;>
                            simp [validatePaymentPayload, decodeAndValidatePaymentHeader,
                              acceptedPayload, JVal.truthy, JVal.isObj, JVal.get, isOk,
                              hver, hv1, hs, hn, hse, hne, hp, hm]
                      | jstr s2 =>
                          by_cases hs2 : s2 = "" <;>
                            simp [validatePaymentPayload, decodeAndValidatePaymentHeader,
                              acceptedPayload, JVal.truthy, JVal.isObj, JVal.get, isOk,
                              hver, hv1, hs, hn, hse, hne, hp, hs2]
                      | jobj hs3 =>
                          by_cases hcont : (s, n) ∈ SUPPORTED_KINDS <;>
                            simp [validatePaymentPayload, decodeAndValidatePaymentHeader,
                              acceptedPayload, JVal.truthy, JVal.isObj, JVal.get, isOk,
                              hver, hv1, hs, hn, hse, hne, hp, hcont]

/-- C10 witness: the characterization applied to a concrete accepted raw
assertion. -/
theorem decode_characterization_witness :
    acceptedPayload goodRaw = true
    ∧ validatePaymentPayload goodRaw = .ok goodRaw
    ∧ decodeAndValidatePaymentHeader (HeaderParse.parsed goodRaw) = .ok goodRaw :=
  ⟨rfl, (decode_characterization goodRaw).2.2.1 rfl⟩

/-- C2 amended: verify compares the caller-claimed destination, amount and
asset against the requirements; a present signed envelope is checked only
for parseability, never against the claimed fields. First conjunct: the
verdict is unchanged when a parseable envelope is replaced by any other, or
removed — the envelope contents are never consulted. Second conjunct: with
any envelope, a claimed destination differing from payTo yields the
destination-mismatch failure, showing the comparison reads the claimed
field. -/
theorem verify_checks_claimed_fields_only :
    (∀ (ver : Int) (sch net src amt dst ast : String) (t : InnerTx)
       (reqs : PaymentRequirements) (la : LoadAccountResult),
      verify { x402Version := ver, scheme := sch, network := net,
               payload := some { signedTxXdr := some (Xdr.good t), sourceAccount := src,
                                 amount := amt, destination := dst, asset := ast } } reqs la
        = verify { x402Version := ver, scheme := sch, network := net,
                   payload := some { signedTxXdr := none, sourceAccount := src,
                                     amount := amt, destination := dst, asset := ast } } reqs la)
    ∧ (∀ (ver : Int) (net src amt dst ast : String) (t : InnerTx)
         (reqs : PaymentRequirements) (la : LoadAccountResult),
        reqs.scheme = "exact" → net = reqs.network →
        src ≠ "" → amt ≠ "" → dst ≠ "" → dst ≠ reqs.payTo →
        verify { x402Version := ver, scheme := "exact", network := net,
                 payload := some { signedTxXdr := some (Xdr.good t), sourceAccount := src,
                                   amount := amt, destination := dst, asset := ast } } reqs la
          = .ok { isValid := false,
                  invalidReason := some "invalid_exact_stellar_payload_destination_mismatch",
                  payer := some src }) := by
  constructor
  · intro ver sch net src amt dst ast t reqs la
    rfl
  · intro ver net src amt dst ast t reqs la hs hn hsrc hamt hdst hmis
    simp [verify, SCHEME, truthyStr, hs, hn, hsrc, hamt, hdst, hmis]

/-- C2 amended witness: the two conjuncts evaluated at the concrete
mismatched payload (and at its claim variant whose destination differs from
payTo). -/
theorem verify_checks_claimed_fields_only_witness :
    verify mismatchedPayload reqsA (LoadAccountResult.found richAccount)
      = verify { x402Version := 1, scheme := "exact", network := "stellar-testnet",
                 payload := some { signedTxXdr := none, sourceAccount := "GSRC",
                                   amount := "1000000", destination := "GDEST",
                                   asset := "native" } } reqsA
          (LoadAccountResult.found richAccount)
    ∧ verify { x402Version := 1, scheme := "exact", network := "stellar-testnet",
               payload := some { signedTxXdr := some (Xdr.good evilTx), sourceAccount := "GSRC",
                                 amount := "1000000", destination := "GOTHER",
                                 asset := "native" } } reqsA
        (LoadAccountResult.found richAccount)
      = .ok { isValid := false,
              invalidReason := some "invalid_exact_stellar_payload_destination_mismatch",
              payer := some "GSRC" } := by
  constructor
  · exact verify_checks_claimed_fields_only.1 1 "exact" "stellar-testnet" "GSRC" "1000000"
      "GDEST" "native" evilTx reqsA (LoadAccountResult.found richAccount)
  · exact verify_checks_claimed_fields_only.2 1 "stellar-testnet" "GSRC" "1000000"
      "GOTHER" "native" evilTx reqsA (LoadAccountResult.found richAccount)
      rfl rfl (by decide) (by decide) (by decide) (by decide)

/-- C3 amended: both replay keys are derived from envelopes only, never from
caller-claimed fields: the key checked before submission is the hash of the
caller's signed envelope, the key persisted afterwards is the hash of the
envelope actually submitted, and the two coincide exactly when no
fee-sponsorship key is configured. The claimed payload fields sp range free
while both keys are functions of cfg and the envelope t alone. -/
theorem settle_keys_derived_from_envelope :
    ∀ (cfg : Config) (time : Nat) (o : RedisOutcome) (ver : Int) (sch net : String)
      (sp : StellarPayload) (t : InnerTx) (reqs : PaymentRequirements)
      (st : ReplayStoreState),
      sp.signedTxXdr = some (Xdr.good t) →
      hasNetworkConfig net = true →
      st.connected = false →
      st.memory.lookup (TxId.txHash (SubmittedEnv.direct t)) = none →
      settleRoute cfg time true o
          { x402Version := ver, scheme := sch, network := net, payload := some sp } reqs st
        = .ok ({ success := true, errorReason := none, payer := some sp.sourceAccount,
                 transaction := some (TxId.txHash (submittedOf cfg t)), network := net },
               { st with memory := (TxId.txHash (submittedOf cfg t),
                  { txHash := TxId.txHash (submittedOf cfg t), resource := reqs.resource,
                    settledAt := time,
                    response := { success := true, errorReason := none,
                                  payer := some sp.sourceAccount,
                                  transaction := some (TxId.txHash (submittedOf cfg t)),
                                  network := net } }) :: st.memory },
               [submittedOf cfg t])
      ∧ getTxHashFromXdr (Xdr.good t) = some (TxId.txHash (SubmittedEnv.direct t))
      ∧ (cfg.facilitatorKey = none →
          TxId.txHash (submittedOf cfg t) = TxId.txHash (SubmittedEnv.direct t)) := by
  intro cfg time o ver sch net sp t reqs st hx hn hconn hmiss
  refine ⟨?_, rfl, ?_⟩
  · simp [settleRoute, settleStep4, settleStellarPayment, getCachedSettlement,
      getSettlementRecord, hasTransactionBeenUsed, markPaymentAsSettled, getTxHashFromXdr,
      Except.map, hx, hn, hconn, hmiss]
  · intro hk
    simp [submittedOf, hk]

/-- C3 amended witness: the key facts evaluated at the concrete sample
payload against the unsponsored configuration. -/
theorem settle_keys_derived_from_envelope_witness :
    settleRoute noSponsor 100 true RedisOutcome.ok samplePayload reqsA emptyStore
      = .ok ({ success := true, errorReason := none, payer := some "GSRC",
               transaction := some (TxId.txHash (submittedOf noSponsor sampleTx)),
               network := "stellar-testnet" },
             { emptyStore with memory := [(TxId.txHash (submittedOf noSponsor sampleTx),
                { txHash := TxId.txHash (submittedOf noSponsor sampleTx), resource := "/x",
                  settledAt := 100,
                  response := { success := true, errorReason := none, payer := some "GSRC",
                                transaction :=
                                  some (TxId.txHash (submittedOf noSponsor sampleTx)),
                                network := "stellar-testnet" } })] },
             [submittedOf noSponsor sampleTx])
    ∧ TxId.txHash (submittedOf noSponsor sampleTx) = TxId.txHash (SubmittedEnv.direct sampleTx) := by
  have h := settle_keys_derived_from_envelope noSponsor 100 RedisOutcome.ok 1 "exact"
    "stellar-testnet"
    { signedTxXdr := some (Xdr.good sampleTx), sourceAccount := "GSRC",
      amount := "1000000", destination := "GDEST", asset := "native" }
    sampleTx reqsA emptyStore rfl rfl rfl rfl
  exact ⟨h.1, h.2.2 rfl⟩

/-- C4 amended: with no fee-sponsorship key configured, after a first
settle(T, R) call whose submission succeeded, a second settle(T, R) call
returns the stored response unchanged and performs no further submission:
the two calls return identical responses and cause exactly one submission. -/
theorem settle_idempotent_without_sponsor :
    ∀ (cfg : Config) (time1 time2 : Nat) (o : RedisOutcome) (ver : Int) (sch net : String)
      (sp : StellarPayload) (t : InnerTx) (reqs : PaymentRequirements)
      (st : ReplayStoreState),
      cfg.facilitatorKey = none →
      sp.signedTxXdr = some (Xdr.good t) →
      hasNetworkConfig net = true →
      st.connected = false →
      st.memory.lookup (TxId.txHash (SubmittedEnv.direct t)) = none →
      settleRoute cfg time1 true o
          { x402Version := ver, scheme := sch, network := net, payload := some sp } reqs st
        = .ok ({ success := true, errorReason := none, payer := some sp.sourceAccount,
                 transaction := some (TxId.txHash (SubmittedEnv.direct t)), network := net },
               { st with memory := (TxId.txHash (SubmittedEnv.direct t),
                  { txHash := TxId.txHash (SubmittedEnv.direct t), resource := reqs.resource,
                    settledAt := time1,
                    response := { success := true, errorReason := none,
                                  payer := some sp.sourceAccount,
                                  transaction := some (TxId.txHash (SubmittedEnv.direct t)),
                                  network := net } }) :: st.memory },
               [SubmittedEnv.direct t])
      ∧ settleRoute cfg time2 true o
          { x402Version := ver, scheme := sch, network := net, payload := some sp } reqs
          { st with memory := (TxId.txHash (SubmittedEnv.direct t),
             { txHash := TxId.txHash (SubmittedEnv.direct t), resource := reqs.resource,
               settledAt := time1,
               response := { success := true, errorReason := none,
                             payer := some sp.sourceAccount,
                             transaction := some (TxId.txHash (SubmittedEnv.direct t)),
                             network := net } }) :: st.memory }
        = .ok ({ success := true, errorReason := none, payer := some sp.sourceAccount,
                 transaction := some (TxId.txHash (SubmittedEnv.direct t)), network := net },
               { st with memory := (TxId.txHash (SubmittedEnv.direct t),
                  { txHash := TxId.txHash (SubmittedEnv.direct t), resource := reqs.resource,
                    settledAt := time1,
                    response := { success := true, errorReason := none,
                                  payer := some sp.sourceAccount,
                                  transaction := some (TxId.txHash (SubmittedEnv.direct t)),
                                  network := net } }) :: st.memory },
               ([] : List SubmittedEnv)) := by
  intro cfg time1 time2 o ver sch net sp t reqs st hkey hx hn hconn hmiss
  constructor
  · simp [settleRoute, settleStep4, settleStellarPayment, getCachedSettlement,
      getSettlementRecord, hasTransactionBeenUsed, markPaymentAsSettled, getTxHashFromXdr,
      Except.map, submittedOf, hkey, hx, hn, hconn, hmiss]
  · simp [settleRoute, getCachedSettlement, getSettlementRecord, getTxHashFromXdr,
      Except.map, hx, hn, hconn]

/-- C4 amended witness: the idempotent pair of calls evaluated on the sample
payload with the unsponsored configuration. -/
theorem settle_idempotent_without_sponsor_witness :
    settleRoute noSponsor 100 true RedisOutcome.ok samplePayload reqsA emptyStore
      = .ok ({ success := true, errorReason := none, payer := some "GSRC",
               transaction := some (TxId.txHash (SubmittedEnv.direct sampleTx)),
               network := "stellar-testnet" },
             { emptyStore with memory := [(TxId.txHash (SubmittedEnv.direct sampleTx),
                { txHash := TxId.txHash (SubmittedEnv.direct sampleTx), resource := "/x",
                  settledAt := 100,
                  response := { success := true, errorReason := none, payer := some "GSRC",
                                transaction :=
                                  some (TxId.txHash (SubmittedEnv.direct sampleTx)),
                                network := "stellar-testnet" } })] },
             [SubmittedEnv.direct sampleTx])
    ∧ settleRoute noSponsor 200 true RedisOutcome.ok samplePayload reqsA
        { emptyStore with memory := [(TxId.txHash (SubmittedEnv.direct sampleTx),
           { txHash := TxId.txHash (SubmittedEnv.direct sampleTx), resource := "/x",
             settledAt := 100,
             response := { success := true, errorReason := none, payer := some "GSRC",
                           transaction := some (TxId.txHash (SubmittedEnv.direct sampleTx)),
                           network := "stellar-testnet" } })] }
      = .ok ({ success := true, errorReason := none, payer := some "GSRC",
               transaction := some (TxId.txHash (SubmittedEnv.direct sampleTx)),
               network := "stellar-testnet" },
             { emptyStore with memory := [(TxId.txHash (SubmittedEnv.direct sampleTx),
                { txHash := TxId.txHash (SubmittedEnv.direct sampleTx), resource := "/x",
                  settledAt := 100,
                  response := { success := true, errorReason := none, payer := some "GSRC",
                                transaction :=
                                  some (TxId.txHash (SubmittedEnv.direct sampleTx)),
                                network := "stellar-testnet" } })] },
             ([] : List SubmittedEnv)) := by
  exact settle_idempotent_without_sponsor noSponsor 100 200 RedisOutcome.ok 1 "exact"
    "stellar-testnet"
    { signedTxXdr := some (Xdr.good sampleTx), sourceAccount := "GSRC",
      amount := "1000000", destination := "GDEST", asset := "native" }
    sampleTx reqsA emptyStore rfl rfl rfl rfl rfl

/-- C7 amended: no failed settlement attempt — terminal ledger rejection or
transient infrastructure failure, which the catch-all cannot distinguish —
is ever persisted: whenever the route returns an unsuccessful response the
store is unchanged, and (second conjunct) a failed submission leaves the
store as it was, so an identical retry reaches ledger submission again. -/
theorem settle_failures_never_persisted :
    (∀ (cfg : Config) (time : Nat) (submitOk : Bool) (o : RedisOutcome)
       (pp : PaymentPayload) (reqs : PaymentRequirements) (st : ReplayStoreState)
       (r : SettleResponse) (st2 : ReplayStoreState) (subs : List SubmittedEnv),
      settleRoute cfg time submitOk o pp reqs st = .ok (r, st2, subs) →
      r.success = false → st2 = st)
    ∧ (∀ (cfg : Config) (time : Nat) (o : RedisOutcome) (ver : Int) (sch net : String)
         (sp : StellarPayload) (t : InnerTx) (reqs : PaymentRequirements)
         (st : ReplayStoreState),
        sp.signedTxXdr = some (Xdr.good t) →
        hasNetworkConfig net = true →
        st.connected = false →
        st.memory.lookup (TxId.txHash (SubmittedEnv.direct t)) = none →
        settleRoute cfg time false o
            { x402Version := ver, scheme := sch, network := net, payload := some sp } reqs st
          = .ok ({ success := false, errorReason := some "Transaction failed",
                   payer := some sp.sourceAccount, transaction := none, network := net },
                 st, [submittedOf cfg t])) := by
  constructor
  · intro cfg time submitOk o pp reqs st r st2 subs h hfail
    simp only [settleRoute, settleStep4] at h
    repeat' split at h
    all_goals simp_all
  · intro cfg time o ver sch net sp t reqs st hx hn hconn hmiss
    simp [settleRoute, settleStep4, settleStellarPayment, getCachedSettlement,
      getSettlementRecord, hasTransactionBeenUsed, getTxHashFromXdr, Except.map,
      hx, hn, hconn, hmiss]

/-- C7 amended witness: a concrete failed submission leaves the store
unchanged (applying both conjuncts at the rejected sample run). -/
theorem settle_failures_never_persisted_witness :
    settleRoute noSponsor 100 false RedisOutcome.ok samplePayload reqsA emptyStore
      = .ok ({ success := false, errorReason := some "Transaction failed",
               payer := some "GSRC", transaction := none, network := "stellar-testnet" },
             emptyStore, [submittedOf noSponsor sampleTx]) := by
  exact settle_failures_never_persisted.2 noSponsor 100 RedisOutcome.ok 1 "exact"
    "stellar-testnet"
    { signedTxXdr := some (Xdr.good sampleTx), sourceAccount := "GSRC",
      amount := "1000000", destination := "GDEST", asset := "native" }
    sampleTx reqsA emptyStore rfl rfl rfl rfl

/-- C6 amended: for every payload whose amount string, and whose
requirements maxAmountRequired string, convert to integers (which the
request schema guarantees for schema-validated requests), verify returns a
verdict value and never throws; and in the region where the account lookup
happens, every ledger I/O error other than not-found yields the verdict
unexpected_verify_error while not-found yields the source-account-not-found
reason. -/
theorem verify_total_and_error_mapping :
    (∀ (pp : PaymentPayload) (reqs : PaymentRequirements) (la : LoadAccountResult),
      (∀ sp, pp.payload = some sp → (jsBigInt sp.amount).isSome = true) →
      (jsBigInt reqs.maxAmountRequired).isSome = true →
      ∃ v, verify pp reqs la = .ok v)
    ∧ (∀ (pp : PaymentPayload) (reqs : PaymentRequirements),
        verifyReachesLedger pp reqs = true →
        verify pp reqs LoadAccountResult.ioError
          = .ok { isValid := false, invalidReason := some "unexpected_verify_error",
                  payer := pp.payload.map (fun sp => sp.sourceAccount) }
        ∧ verify pp reqs LoadAccountResult.notFound
          = .ok { isValid := false,
                  invalidReason :=
                    some "invalid_exact_stellar_payload_source_account_not_found",
                  payer := pp.payload.map (fun sp => sp.sourceAccount) }) := by
  constructor
  · intro pp reqs la hamt hmax
    unfold verify
    repeat' split
    all_goals first
      | exact ⟨_, rfl⟩
      | simp_all
  · intro pp reqs h
    simp only [verifyReachesLedger] at h
    repeat' split at h
    all_goals try simp_all [verify]
    all_goals
      refine ⟨?_, ?_⟩ <;>
        (rw [if_neg (by omega)]; split <;> simp_all)

/-- C6 amended witness: verify evaluated on the concrete sample payload
returns a verdict for a found account, and maps the two ledger lookup
failures to their designated reasons. -/
theorem verify_total_and_error_mapping_witness :
    (∃ v, verify samplePayload reqsA (LoadAccountResult.found richAccount) = .ok v)
    ∧ verify samplePayload reqsA LoadAccountResult.ioError
      = .ok { isValid := false, invalidReason := some "unexpected_verify_error",
              payer := some "GSRC" }
    ∧ verify samplePayload reqsA LoadAccountResult.notFound
      = .ok { isValid := false,
              invalidReason := some "invalid_exact_stellar_payload_source_account_not_found",
              payer := some "GSRC" } := by
  have hmap := verify_total_and_error_mapping.2 samplePayload reqsA rfl
  refine ⟨verify_total_and_error_mapping.1 samplePayload reqsA
    (LoadAccountResult.found richAccount) ?_ rfl, hmap.1, hmap.2⟩
  intro sp hsp
  cases hsp
  rfl

end StellarX402
